import Mathlib

/-!
Verification of the control-loop core of an AI-driven web-testing automation
program (source: main.py).  The Python class EnhancedWebTestingAutomation is
shallowly embedded: its pure logic (response parsing, termination policy,
conversation windowing, page-state fingerprinting) is translated into
executable Lean definitions, and its stateful session loop is translated into
explicit state passing over a session-state record, with the external world
(browser driver, inference API, clock) supplied as explicit input traces.

Conventions of the embedding:
- Python floats that are only compared and never bit-manipulated (time values,
  the failure-rate ratio) are modelled as exact rationals.
- A Python method raising an exception is modelled as a value of an Except
  type (or an Option field of an input trace); try/except blocks are
  translated into the corresponding matches.
- Python dicts produced by json.loads are modelled as association lists in
  parse order; lookup takes the last binding for a key, matching dict insert
  order semantics for duplicate keys.
-/

/-! ## Basic character and string helpers (modelling Python str primitives) -/

/-- ASCII lowercase of one character, modelling str.lower per character. -/
def pyToLowerChar (c : Char) : Char := c.toLower

/-- Lowercase of a character list, modelling str.lower. -/
def pyToLower (cs : List Char) : List Char := cs.map pyToLowerChar

/-- Whether the pattern is an initial segment of the text. -/
def listStartsWith : List Char → List Char → Bool
  | [], _ => true
  | _ :: _, [] => false
  | p :: ps, c :: cs => p == c && listStartsWith ps cs

/-- Whether the pattern occurs as a contiguous sublist of the text,
modelling the Python operator "needle in haystack" on strings. -/
def listContainsSub (needle : List Char) : List Char → Bool
  | [] => listStartsWith needle []
  | c :: cs => listStartsWith needle (c :: cs) || listContainsSub needle cs

/-- Python substring test s2 in s1, on whole strings. -/
def pyContains (hay needle : String) : Bool := listContainsSub needle.data hay.data

/-- Python str.startswith. -/
def pyStartsWith (s p : String) : Bool := listStartsWith p.data s.data

/-! ## Termination policy (should_continue_testing, main.py lines 598-627)

The mutable instance attributes touched by the method are collected into a
session-state record; the wall-clock read time.time() - self.start_time is
passed in as the rational parameter elapsed. -/

/-- Mutable per-session state of EnhancedWebTestingAutomation that the
termination policy and the action dispatch read and write
(fields initialized in __init__, main.py lines 79-85). -/
structure SessionState where
  last_page_hash : Option String
  consecutive_same_state_count : Nat
  max_same_state_count : Nat
  successful_actions : Nat
  failed_actions : Nat
deriving Repr, DecidableEq

/-- State of a fresh EnhancedWebTestingAutomation instance (__init__):
no previous fingerprint, zero counters, stagnation threshold 2. -/
def initSessionState : SessionState :=
  { last_page_hash := none
    consecutive_same_state_count := 0
    max_same_state_count := 2
    successful_actions := 0
    failed_actions := 0 }

/-- The reason component of the pair returned by should_continue_testing,
one constructor per return site of the Python method, carrying the numbers
interpolated into the corresponding f-string message. -/
inductive StopReason where
  | maxIterations (cap : Nat)
  | stagnation (count : Nat)
  | highFailureRate (failed total : Nat)
  | timeLimit
  | continueTesting
deriving Repr, DecidableEq

/-- Translation of should_continue_testing (main.py lines 598-627).
Returns the updated session state together with the (bool, reason) pair the
Python method returns.  The checks appear in source order: iteration cap,
stagnation-counter update and check, failure-rate check, elapsed-time check. -/
def should_continue_testing (st : SessionState) (elapsed : ℚ)
    (current_state_hash : String) (iteration max_iterations : Nat) :
    SessionState × Bool × StopReason :=
  if iteration ≥ max_iterations then
    (st, false, StopReason.maxIterations max_iterations)
  else
    let st' :=
      if some current_state_hash = st.last_page_hash then
        { st with consecutive_same_state_count := st.consecutive_same_state_count + 1 }
      else
        { st with consecutive_same_state_count := 0
                  last_page_hash := some current_state_hash }
    if st'.consecutive_same_state_count ≥ st'.max_same_state_count then
      (st', false, StopReason.stagnation st'.consecutive_same_state_count)
    else
      let total := st'.successful_actions + st'.failed_actions
      if 0 < total ∧ ((st'.failed_actions : ℚ) / (total : ℚ) > 7/10 ∧ 3 ≤ total) then
        (st', false, StopReason.highFailureRate st'.failed_actions total)
      else if elapsed > 300 then
        (st', false, StopReason.timeLimit)
      else
        (st', true, StopReason.continueTesting)

/-- The fingerprint-tracking update performed by should_continue_testing
before its stagnation check: an unchanged hash increments the consecutive
counter, a changed hash resets it to zero and stores the new hash. -/
def updateStag (st : SessionState) (h : String) : SessionState :=
  if some h = st.last_page_hash then
    { st with consecutive_same_state_count := st.consecutive_same_state_count + 1 }
  else
    { st with consecutive_same_state_count := 0
              last_page_hash := some h }

/-- The stagnation condition of should_continue_testing after the counter
update: the incoming hash equals the stored one and the incremented counter
reaches the threshold, or the hash differs and the threshold is zero. -/
def stagnationFires (st : SessionState) (h : String) : Bool :=
  if some h = st.last_page_hash then
    st.consecutive_same_state_count + 1 ≥ st.max_same_state_count
  else
    0 ≥ st.max_same_state_count

/-- The failure-rate condition of should_continue_testing: at least one
recorded action, strictly more than 70 percent of them failed, and at least
three actions in total. -/
def failureRateFires (st : SessionState) : Bool :=
  let total := st.successful_actions + st.failed_actions
  decide (0 < total ∧ ((st.failed_actions : ℚ) / (total : ℚ) > 7/10 ∧ 3 ≤ total))

/-- Normal form of should_continue_testing: the sequence of checks it
performs, written with the named conditions.  Used to settle the
precedence and stagnation claims. -/
theorem should_continue_testing_eq (st : SessionState) (elapsed : ℚ)
    (h : String) (it maxIt : Nat) :
    should_continue_testing st elapsed h it maxIt =
      if it ≥ maxIt then (st, false, StopReason.maxIterations maxIt)
      else if stagnationFires st h then
        (updateStag st h, false,
          StopReason.stagnation (updateStag st h).consecutive_same_state_count)
      else if failureRateFires st then
        (updateStag st h, false,
          StopReason.highFailureRate st.failed_actions
            (st.successful_actions + st.failed_actions))
      else if elapsed > 300 then
        (updateStag st h, false, StopReason.timeLimit)
      else
        (updateStag st h, true, StopReason.continueTesting) := by
  unfold should_continue_testing updateStag stagnationFires failureRateFires
  by_cases hge : it ≥ maxIt
  · simp [hge]
  · simp only [if_neg hge]
    by_cases heq : some h = st.last_page_hash <;> simp [heq]

/-! ## Claims C3, C4, C5: termination-policy precedence and stagnation -/

/-- C4: whenever the iteration counter has reached the configured maximum,
should_continue_testing stops with the iteration-cap reason and leaves the
session state untouched, regardless of stagnation counters, action counters
and elapsed time. -/
theorem C4_iteration_cap_wins (st : SessionState) (elapsed : ℚ) (h : String)
    (iteration max_iterations : Nat) (hge : iteration ≥ max_iterations) :
    should_continue_testing st elapsed h iteration max_iterations =
      (st, false, StopReason.maxIterations max_iterations) := by
  unfold should_continue_testing
  simp [hge]

/-- C4 witness: a concrete state past the iteration cap, with a stagnating
fingerprint, many failures and a huge elapsed time, still reports the
iteration cap. -/
theorem C4_iteration_cap_wins_witness :
    should_continue_testing
      { last_page_hash := some ("h")
        consecutive_same_state_count := 5
        max_same_state_count := 2
        successful_actions := 0
        failed_actions := 9 } 10000 ("h") 12 12 =
      ({ last_page_hash := some ("h")
         consecutive_same_state_count := 5
         max_same_state_count := 2
         successful_actions := 0
         failed_actions := 9 }, false, StopReason.maxIterations 12) :=
  C4_iteration_cap_wins _ 10000 ("h") 12 12 (by decide)

/-- C3 counterexample: the claim puts the wall-clock cap second in precedence,
before stagnation; but at a state whose elapsed time 400 is past the 300
second cap, whose iteration 1 is below the cap 12, and whose fingerprint
stagnates (stored hash equals the incoming one at threshold 2), the code
returns the stagnation reason, not the time-cap reason. -/
theorem C3_time_precedence_counterexample :
    (should_continue_testing
      { last_page_hash := some ("h")
        consecutive_same_state_count := 1
        max_same_state_count := 2
        successful_actions := 0
        failed_actions := 0 } 400 ("h") 1 12).2.2 = StopReason.stagnation 2 ∧
    StopReason.stagnation 2 ≠ StopReason.timeLimit := by
  constructor
  · decide
  · decide

/-- C3 amended: should_continue_testing evaluates its signals in the source
order iteration cap, stagnation, failure rate, wall-clock time — the time cap
is checked last, not second — and the first matching signal wins. -/
theorem C3_actual_precedence (st : SessionState) (elapsed : ℚ) (h : String)
    (it maxIt : Nat) :
    (it ≥ maxIt →
      should_continue_testing st elapsed h it maxIt =
        (st, false, StopReason.maxIterations maxIt)) ∧
    (it < maxIt → stagnationFires st h = true →
      (should_continue_testing st elapsed h it maxIt).2.2 =
        StopReason.stagnation
          (should_continue_testing st elapsed h it maxIt).1.consecutive_same_state_count) ∧
    (it < maxIt → stagnationFires st h = false → failureRateFires st = true →
      (should_continue_testing st elapsed h it maxIt).2.2 =
        StopReason.highFailureRate st.failed_actions
          (st.successful_actions + st.failed_actions)) ∧
    (it < maxIt → stagnationFires st h = false → failureRateFires st = false →
      elapsed > 300 →
      (should_continue_testing st elapsed h it maxIt).2.2 = StopReason.timeLimit) ∧
    (it < maxIt → stagnationFires st h = false → failureRateFires st = false →
      ¬ elapsed > 300 →
      (should_continue_testing st elapsed h it maxIt).2 =
        (true, StopReason.continueTesting)) := by
  refine ⟨fun hge => C4_iteration_cap_wins st elapsed h it maxIt hge, ?_, ?_, ?_, ?_⟩ <;>
    · intros
      rw [should_continue_testing_eq]
      simp_all [Nat.not_le]
      split_ifs <;> first | rfl | omega | linarith

/-- C3 amended witness: at elapsed time 400 with a fresh non-stagnating state
and no other live signal, the time cap is the reason that fires. -/
theorem C3_actual_precedence_witness :
    (should_continue_testing initSessionState 400 ("h") 1 12).2.2 =
      StopReason.timeLimit :=
  (C3_actual_precedence initSessionState 400 ("h") 1 12).2.2.2.1
    (by decide) (by decide) (by decide) (by norm_num)

/-- C5: below the iteration cap, one call to should_continue_testing
increments the consecutive-stagnation counter exactly when the incoming
fingerprint equals the stored one (keeping the stored fingerprint), resets
it to zero and stores the new fingerprint exactly when it differs, and — at
the configured threshold 2 — returns the stagnation stop reason exactly when
the updated counter has reached the threshold. -/
theorem C5_stagnation_counting (st : SessionState) (elapsed : ℚ) (h : String)
    (it maxIt : Nat) (hlt : it < maxIt) (hthresh : st.max_same_state_count = 2) :
    ((some h = st.last_page_hash →
        (should_continue_testing st elapsed h it maxIt).1.consecutive_same_state_count
            = st.consecutive_same_state_count + 1 ∧
        (should_continue_testing st elapsed h it maxIt).1.last_page_hash
            = st.last_page_hash) ∧
      (some h ≠ st.last_page_hash →
        (should_continue_testing st elapsed h it maxIt).1.consecutive_same_state_count
            = 0 ∧
        (should_continue_testing st elapsed h it maxIt).1.last_page_hash = some h)) ∧
    ((should_continue_testing st elapsed h it maxIt).2.2 =
        StopReason.stagnation
          (should_continue_testing st elapsed h it maxIt).1.consecutive_same_state_count
      ↔ 2 ≤ (should_continue_testing st elapsed h it maxIt).1.consecutive_same_state_count) := by
  have hfst : (should_continue_testing st elapsed h it maxIt).1 = updateStag st h := by
    rw [should_continue_testing_eq, if_neg (by omega)]
    split_ifs <;> rfl
  have hiff : stagnationFires st h = true ↔
      2 ≤ (updateStag st h).consecutive_same_state_count := by
    unfold stagnationFires updateStag
    by_cases heq : some h = st.last_page_hash <;> simp [heq, hthresh]
  refine ⟨⟨?_, ?_⟩, ?_⟩
  · intro heq
    rw [hfst]
    simp [updateStag, heq]
  · intro hne
    rw [hfst]
    simp [updateStag, hne]
  · rw [hfst, should_continue_testing_eq, if_neg (by omega)]
    by_cases hstag : stagnationFires st h
    · simp [hstag, hiff.mp hstag]
    · have h2 : ¬ 2 ≤ (updateStag st h).consecutive_same_state_count :=
        fun hc => hstag (hiff.mpr hc)
      simp only [hstag, if_false, Bool.false_eq_true]
      split_ifs <;> simp [h2]

/-- C5 witness: a state holding fingerprint h with one prior repeat, seeing h
again below the iteration cap, stops with the stagnation reason at the
updated counter value 2. -/
theorem C5_stagnation_counting_witness :
    (should_continue_testing
      { last_page_hash := some ("h")
        consecutive_same_state_count := 1
        max_same_state_count := 2
        successful_actions := 0
        failed_actions := 0 } 0 ("h") 1 12).2.2 =
      StopReason.stagnation
        (should_continue_testing
          { last_page_hash := some ("h")
            consecutive_same_state_count := 1
            max_same_state_count := 2
            successful_actions := 0
            failed_actions := 0 } 0 ("h") 1 12).1.consecutive_same_state_count :=
  ((C5_stagnation_counting _ 0 ("h") 1 12 (by decide) rfl).2).mpr (by decide)

/-! ## Conversation window (call_gemini_api_robust, main.py lines 531-553)

The method rebuilds, on every attempt, the outward request content from the
conversation history: it keeps only the two most recent messages
(messages[-2:]) and turns each user-role message into a text part plus an
optional inline image part.  The content construction is pure and is
modelled here; the retry/backoff machinery around the network call carries
no claim and is abstracted into the per-call outcome of the oracle trace in
the session-loop model below. -/

/-- One entry of self.conversation_history / the local messages list:
a dict with role, content and an optional base64 image (empty string when
absent), exactly the keys the source ever writes. -/
structure Message where
  role : String
  content : String
  image : String
deriving Repr, DecidableEq

/-- One element of the content list sent to the model: the text part and,
when the message carried a non-empty image, the inline-data part. -/
structure RequestParts where
  text : String
  image : Option String
deriving Repr, DecidableEq

/-- The parts built from one user message (main.py lines 542-553). -/
def msgParts (m : Message) : RequestParts :=
  { text := m.content
    image := if m.image ≠ "" then some m.image else none }

/-- messages[-2:] if len(messages) > 2 else messages (main.py line 539). -/
def recent_messages (messages : List Message) : List Message :=
  if messages.length > 2 then messages.drop (messages.length - 2) else messages

/-- The content list transmitted to the oracle on each attempt of
call_gemini_api_robust (main.py lines 535-553): only user-role messages of
the recent window contribute parts. -/
def build_api_content (messages : List Message) : List RequestParts :=
  (recent_messages messages).filterMap
    (fun m => if m.role = "user" then some (msgParts m) else none)

/-- Helper: the recent window never holds more than two messages. -/
theorem recent_messages_length_le (messages : List Message) :
    (recent_messages messages).length ≤ 2 := by
  unfold recent_messages
  by_cases hlen : messages.length > 2 <;> simp [hlen] <;> omega

/-- Helper: filterMap over a list of user-role messages keeps every
message, in order. -/
theorem filterMap_user_eq_map (l : List Message)
    (hall : ∀ m ∈ l, m.role = "user") :
    l.filterMap (fun m => if m.role = "user" then some (msgParts m) else none)
      = l.map msgParts := by
  induction l with
  | nil => rfl
  | cons m tl ih =>
      have hm : m.role = "user" := hall m (by simp)
      simp [hm, ih (fun x hx => hall x (by simp [hx]))]

/-- C6: the content transmitted by call_gemini_api_robust is built from at
most the 2 most recent conversation messages, and — since every message this
program appends has role user — when more than 2 messages have accumulated
it is exactly the parts of the 2 most recent messages, regardless of the
total history length. -/
theorem C6_bounded_window (messages : List Message) :
    (build_api_content messages).length ≤ 2 ∧
    ((∀ m ∈ messages, m.role = "user") → 2 < messages.length →
      build_api_content messages
        = (messages.drop (messages.length - 2)).map msgParts) := by
  constructor
  · calc (build_api_content messages).length
        ≤ (recent_messages messages).length := List.length_filterMap_le _ _
      _ ≤ 2 := recent_messages_length_le messages
  · intro hall hlen
    unfold build_api_content recent_messages
    rw [if_pos hlen]
    exact filterMap_user_eq_map _
      (fun m hm => hall m (List.drop_subset _ _ hm))

/-- C6 witness: with four accumulated user messages, exactly the parts of
the last two are transmitted. -/
theorem C6_bounded_window_witness :
    build_api_content
      [ { role := "user", content := "m1", image := "" }
      , { role := "user", content := "m2", image := "i2" }
      , { role := "user", content := "m3", image := "" }
      , { role := "user", content := "m4", image := "i4" } ]
      = [ { text := "m3", image := none }
        , { text := "m4", image := some ("i4") } ] := by
  rw [(C6_bounded_window _).2 (by decide) (by decide)]
  rfl

/-! ## JSON values and json.loads (used by parse_ai_response)

Python dicts obtained from json.loads are modelled as association lists in
parse order; Json.getKey takes the last binding, matching dict insertion
semantics for duplicate keys.  Numbers (ints and floats) are modelled as
exact rationals; the non-finite constants NaN/Infinity that CPython json
additionally accepts are outside the model (no claim involves them). -/

/-- A parsed JSON value. -/
inductive Json where
  | null
  | bool (b : Bool)
  | num (q : ℚ)
  | str (s : String)
  | arr (elems : List Json)
  | obj (fields : List (String × Json))
deriving Repr

/-- Dictionary lookup, later duplicate keys shadowing earlier ones as in a
Python dict built by json.loads. -/
def Json.getKey (j : Json) (k : String) : Option Json :=
  match j with
  | Json.obj fields =>
      fields.foldl (fun acc kv => if kv.1 = k then some kv.2 else acc) none
  | _ => none

/-- The opening brace character. -/
def braceL : Char := Char.ofNat 123

/-- The closing brace character. -/
def braceR : Char := Char.ofNat 125

/-- The double-quote character. -/
def dquote : Char := Char.ofNat 34

/-- The single-quote character. -/
def squote : Char := Char.ofNat 39

/-- The backslash character. -/
def bslash : Char := Char.ofNat 92

/-- JSON inter-token whitespace (space, tab, newline, carriage return). -/
def isJsonWs (c : Char) : Bool :=
  c = ' ' || c = Char.ofNat 9 || c = Char.ofNat 10 || c = Char.ofNat 13

/-- Skip JSON whitespace. -/
def jsonSkipWs : List Char → List Char
  | [] => []
  | c :: cs => if isJsonWs c then jsonSkipWs cs else c :: cs

/-- Numeric value of a decimal digit list. -/
def digitsVal (ds : List Char) : Nat :=
  ds.foldl (fun n c => n * 10 + (c.toNat - 48)) 0

/-- Split off a maximal run of leading decimal digits. -/
def takeDigits : List Char → (List Char × List Char)
  | [] => ([], [])
  | c :: cs =>
      if c.isDigit then
        let (ds, rest) := takeDigits cs
        (c :: ds, rest)
      else ([], c :: cs)

/-- Numeric value of one hexadecimal digit (0 for non-hex input). -/
def hexDigitVal (c : Char) : Nat :=
  if c.isDigit then c.toNat - 48
  else if 'a' ≤ c.toLower && c.toLower ≤ 'f' then c.toLower.toNat - 87
  else 0

/-- Whether a character is a hexadecimal digit. -/
def isHexDigit (c : Char) : Bool :=
  c.isDigit || ('a' ≤ c.toLower && c.toLower ≤ 'f')

/-- Parse the strict JSON number grammar -?(0|[1-9][0-9]*)(.[0-9]+)?([eE][-+]?[0-9]+)?
at the head of the input, returning its exact rational value and the rest. -/
def parseJNumber (cs : List Char) : Option (ℚ × List Char) :=
  let (neg, cs1) :=
    match cs with
    | c :: tl => if c = '-' then (true, tl) else (false, cs)
    | [] => (false, [])
  match cs1 with
  | [] => none
  | c :: tl =>
    if !c.isDigit then none
    else
      let (intDs, rest) :=
        if c = '0' then (([c] : List Char), tl)
        else
          let (ds, r) := takeDigits tl
          (c :: ds, r)
      let (fracDs, rest2, fracOk) :=
        match rest with
        | d :: tl2 =>
            if d = '.' then
              let (ds, r) := takeDigits tl2
              (ds, r, !ds.isEmpty)
            else ([], rest, true)
        | [] => ([], rest, true)
      if !fracOk then none
      else
        let (expVal, rest3, expOk) :=
          match rest2 with
          | e :: tl3 =>
              if e = 'e' || e = 'E' then
                let (esign, tl4) :=
                  match tl3 with
                  | s :: tl5 =>
                      if s = '+' then (1, tl5)
                      else if s = '-' then (-1, tl5)
                      else (1, tl3)
                  | [] => (1, tl3)
                let (ds, r) := takeDigits tl4
                (((esign : Int) * (digitsVal ds : Int)), r, !ds.isEmpty)
              else ((0 : Int), rest2, true)
          | [] => ((0 : Int), rest2, true)
        if !expOk then none
        else
          let mant : ℚ :=
            (digitsVal intDs : ℚ) + (digitsVal fracDs : ℚ) / ((10 : ℚ) ^ fracDs.length)
          let scaled : ℚ := mant * (10 : ℚ) ^ expVal
          some (if neg then -scaled else scaled, rest3)

/-- Parse the body of a JSON string (after the opening quote) up to and
including the closing quote.  Strict mode: raw control characters below
0x20 are rejected; only the escapes of the JSON grammar are accepted.
A BMP escape pair forming a surrogate pair is combined; a lone surrogate
(representable in a Python str but not as a Lean scalar value) falls back
to the null character and never arises in any claim input. -/
def parseJString : Nat → List Char → Option (String × List Char)
  | 0, _ => none
  | _, [] => none
  | fuel + 1, c :: cs =>
    if c = dquote then some ("", cs)
    else if c.toNat < 32 then none
    else if c = bslash then
      match cs with
      | [] => none
      | e :: cs2 =>
        let simpleEsc : Option Char :=
          if e = dquote then some dquote
          else if e = bslash then some bslash
          else if e = '/' then some '/'
          else if e = 'b' then some (Char.ofNat 8)
          else if e = 'f' then some (Char.ofNat 12)
          else if e = 'n' then some (Char.ofNat 10)
          else if e = 'r' then some (Char.ofNat 13)
          else if e = 't' then some (Char.ofNat 9)
          else none
        match simpleEsc with
        | some ch =>
            match parseJString fuel cs2 with
            | some (s, rest) => some (String.mk (ch :: s.data), rest)
            | none => none
        | none =>
          if e = 'u' then
            match cs2 with
            | h1 :: h2 :: h3 :: h4 :: cs3 =>
              if isHexDigit h1 && isHexDigit h2 && isHexDigit h3 && isHexDigit h4 then
                let n := ((hexDigitVal h1 * 16 + hexDigitVal h2) * 16 + hexDigitVal h3) * 16
                  + hexDigitVal h4
                if 0xD800 ≤ n ∧ n ≤ 0xDBFF then
                  match cs3 with
                  | b1 :: u2 :: g1 :: g2 :: g3 :: g4 :: cs4 =>
                    if b1 = bslash && u2 = 'u'
                        && isHexDigit g1 && isHexDigit g2 && isHexDigit g3 && isHexDigit g4 then
                      let m := ((hexDigitVal g1 * 16 + hexDigitVal g2) * 16 + hexDigitVal g3) * 16
                        + hexDigitVal g4
                      if 0xDC00 ≤ m ∧ m ≤ 0xDFFF then
                        let cp := 0x10000 + (n - 0xD800) * 0x400 + (m - 0xDC00)
                        match parseJString fuel cs4 with
                        | some (s, rest) => some (String.mk (Char.ofNat cp :: s.data), rest)
                        | none => none
                      else
                        match parseJString fuel cs3 with
                        | some (s, rest) => some (String.mk (Char.ofNat 0 :: s.data), rest)
                        | none => none
                    else
                      match parseJString fuel cs3 with
                      | some (s, rest) => some (String.mk (Char.ofNat 0 :: s.data), rest)
                      | none => none
                  | _ =>
                    match parseJString fuel cs3 with
                    | some (s, rest) => some (String.mk (Char.ofNat 0 :: s.data), rest)
                    | none => none
                else
                  match parseJString fuel cs3 with
                  | some (s, rest) => some (String.mk (Char.ofNat n :: s.data), rest)
                  | none => none
              else none
            | _ => none
          else none
    else
      match parseJString fuel cs with
      | some (s, rest) => some (String.mk (c :: s.data), rest)
      | none => none

/-- Case-sensitive literal match at the head of the input, returning the
rest on success. -/
def matchListLit : List Char → List Char → Option (List Char)
  | [], cs => some cs
  | _ :: _, [] => none
  | p :: ps, c :: cs => if p = c then matchListLit ps cs else none

mutual

/-- Parse one JSON value after skipping leading whitespace. -/
def parseJValue : Nat → List Char → Option (Json × List Char)
  | 0, _ => none
  | fuel + 1, cs =>
    match jsonSkipWs cs with
    | [] => none
    | c :: tl =>
      if c = braceL then parseJMembers fuel tl
      else if c = '[' then parseJElems fuel tl
      else if c = dquote then
        match parseJString (tl.length + 1) tl with
        | some (s, rest) => some (Json.str s, rest)
        | none => none
      else if c = 't' then
        match matchListLit ("rue").data tl with
        | some rest => some (Json.bool true, rest)
        | none => none
      else if c = 'f' then
        match matchListLit ("alse").data tl with
        | some rest => some (Json.bool false, rest)
        | none => none
      else if c = 'n' then
        match matchListLit ("ull").data tl with
        | some rest => some (Json.null, rest)
        | none => none
      else if c = '-' || c.isDigit then
        match parseJNumber (c :: tl) with
        | some (q, rest) => some (Json.num q, rest)
        | none => none
      else none

/-- Parse the members of a JSON object after the opening brace, up to and
including the closing brace. -/
def parseJMembers : Nat → List Char → Option (Json × List Char)
  | 0, _ => none
  | fuel + 1, cs =>
    match jsonSkipWs cs with
    | [] => none
    | c :: tl =>
      if c = braceR then some (Json.obj [], tl)
      else if c = dquote then
        match parseJPairs fuel (c :: tl) [] with
        | some (fields, rest) => some (Json.obj fields, rest)
        | none => none
      else none

/-- Parse a nonempty comma-separated member list, the next key expected at
the head (after whitespace already skipped before the first key). -/
def parseJPairs : Nat → List Char → List (String × Json) →
    Option (List (String × Json) × List Char)
  | 0, _, _ => none
  | fuel + 1, cs, acc =>
    match cs with
    | [] => none
    | c :: tl =>
      if c = dquote then
        match parseJString (tl.length + 1) tl with
        | none => none
        | some (key, rest1) =>
          match jsonSkipWs rest1 with
          | ':' :: rest2 =>
            match parseJValue fuel rest2 with
            | none => none
            | some (v, rest3) =>
              match jsonSkipWs rest3 with
              | d :: rest4 =>
                if d = braceR then some (acc ++ [(key, v)], rest4)
                else if d = ',' then parseJPairs fuel (jsonSkipWs rest4) (acc ++ [(key, v)])
                else none
              | [] => none
          | _ => none
      else none

/-- Parse the elements of a JSON array after the opening bracket, up to and
including the closing bracket. -/
def parseJElems : Nat → List Char → Option (Json × List Char)
  | 0, _ => none
  | fuel + 1, cs =>
    match jsonSkipWs cs with
    | ']' :: tl => some (Json.arr [], tl)
    | _ =>
      match parseJItems fuel cs [] with
      | some (elems, rest) => some (Json.arr elems, rest)
      | none => none

/-- Parse a nonempty comma-separated element list. -/
def parseJItems : Nat → List Char → List Json → Option (List Json × List Char)
  | 0, _, _ => none
  | fuel + 1, cs, acc =>
    match parseJValue fuel cs with
    | none => none
    | some (v, rest) =>
      match jsonSkipWs rest with
      | d :: rest2 =>
        if d = ']' then some (acc ++ [v], rest2)
        else if d = ',' then parseJItems fuel rest2 (acc ++ [v])
        else none
      | [] => none

end

/-- Translation of json.loads: parse one value, then require only trailing
whitespace. -/
def json_loads (s : String) : Option Json :=
  match parseJValue (s.length + 2) s.data with
  | some (v, rest) => if (jsonSkipWs rest).isEmpty then some v else none
  | none => none

/-! ## Response interpretation (parse_ai_response, main.py lines 629-691)

The method tries four regular expressions in order over the raw response
text, parsing each match with json.loads and returning the first parsed
object that carries an action key; with no usable structured data it falls
back to keyword heuristics over the lowercased text.  Each of the four
patterns is compiled with DOTALL and IGNORECASE; the patterns are simple
enough that their matching (including the lazy quantifiers and the findall
non-overlapping scan) is realized below by direct scanners. -/

/-- Whitespace for the regex class backslash-s (ASCII range). -/
def isReSpace (c : Char) : Bool :=
  c = ' ' || (9 ≤ c.toNat && c.toNat ≤ 13)

/-- Drop leading regex whitespace, the deterministic reduction of a greedy
backslash-s star followed by a non-whitespace literal. -/
def reSkipWs : List Char → List Char
  | [] => []
  | c :: cs => if isReSpace c then reSkipWs cs else c :: cs

/-- Case-insensitive literal match at the head of the input (the pattern is
given lowercased); returns the rest of the input past the literal. -/
def matchLitCI : List Char → List Char → Option (List Char)
  | [], cs => some cs
  | _ :: _, [] => none
  | p :: ps, c :: cs => if c.toLower = p then matchLitCI ps cs else none

/-- re.findall driver: try a match at every position left to right,
resuming after the end of each (non-overlapping) match; fuel bounds the
scan by the text length. -/
def scanAll (tryAt : List Char → Option (List Char × List Char)) :
    Nat → List Char → List (List Char)
  | 0, _ => []
  | fuel + 1, cs =>
    match tryAt cs with
    | some (g, rest) => g :: scanAll tryAt fuel rest
    | none =>
      match cs with
      | [] => []
      | _ :: tl => scanAll tryAt fuel tl

/-- The lazy group of the fenced patterns: consume the shortest run of
arbitrary characters (DOTALL) such that a closing brace followed by
optional whitespace and a closing fence comes next; returns the brace
group and the input past the closing fence. -/
def lazyToFence (acc : List Char) : List Char → Option (List Char × List Char)
  | [] => none
  | c :: tl =>
    if c = braceR then
      match matchLitCI ("```").data (reSkipWs tl) with
      | some rest => some (acc ++ [braceR], rest)
      | none => lazyToFence (acc ++ [c]) tl
    else lazyToFence (acc ++ [c]) tl

/-- Matcher for the two fenced patterns (with fence either ```json or ```):
the fence, optional whitespace, then the lazy brace group up to a closing
fence. -/
def tryFenced (fence : List Char) (cs : List Char) : Option (List Char × List Char) :=
  match matchLitCI fence cs with
  | none => none
  | some rest =>
    match reSkipWs rest with
    | c :: tl => if c = braceL then lazyToFence [braceL] tl else none
    | [] => none

/-- The quoted action discriminator searched for by the last two patterns,
lowercased for case-insensitive comparison. -/
def quotedAction : List Char := dquote :: ("action").data ++ [dquote]

/-- Interior scan of the brace-free pattern: accumulate characters up to
the first brace; a closing brace ends the group provided the interior
contains the quoted discriminator, an opening brace kills the match. -/
def scanInterior (acc : List Char) : List Char → Option (List Char × List Char)
  | [] => none
  | c :: tl =>
    if c = braceL then none
    else if c = braceR then
      if listContainsSub quotedAction (pyToLower acc) then
        some (braceL :: acc ++ [braceR], tl)
      else none
    else scanInterior (acc ++ [c]) tl

/-- Matcher for the brace-free pattern: an opening brace, an interior free
of braces containing the quoted discriminator, and a closing brace. -/
def tryBareAction : List Char → Option (List Char × List Char)
  | [] => none
  | c :: tl => if c = braceL then scanInterior [] tl else none

/-- Split the input at the first case-insensitive occurrence of the
needle: the first component is everything up to and including the
occurrence (in original case), the second the rest. -/
def splitAtSubCI (needle : List Char) : List Char → Option (List Char × List Char)
  | [] =>
      match matchLitCI needle [] with
      | some _ => some ([], [])
      | none => none
  | c :: cs =>
      match matchLitCI needle (c :: cs) with
      | some rest => some ((c :: cs).take ((c :: cs).length - rest.length), rest)
      | none =>
        match splitAtSubCI needle cs with
        | some (pre, rest) => some (c :: pre, rest)
        | none => none

/-- Split the input at the first occurrence of the character, the first
component including it. -/
def splitAtChar (target : Char) : List Char → Option (List Char × List Char)
  | [] => none
  | c :: cs =>
      if c = target then some ([c], cs)
      else
        match splitAtChar target cs with
        | some (pre, rest) => some (c :: pre, rest)
        | none => none

/-- Matcher for the doubly-lazy pattern: an opening brace, the shortest run
to the quoted discriminator (DOTALL, so braces may be crossed), then the
shortest run to a closing brace. -/
def tryLazyAction : List Char → Option (List Char × List Char)
  | [] => none
  | c :: tl =>
    if c = braceL then
      match splitAtSubCI quotedAction tl with
      | none => none
      | some (pre1, rest1) =>
        match splitAtChar braceR rest1 with
        | none => none
        | some (pre2, rest2) => some (braceL :: (pre1 ++ pre2), rest2)
    else none

/-- Python str.strip on its default whitespace (ASCII range). -/
def stripPy (cs : List Char) : List Char :=
  ((cs.dropWhile isReSpace).reverse.dropWhile isReSpace).reverse

/-- One iteration of the inner loop of parse_ai_response: strip the regex
match, json.loads it, and keep the result only when the action
discriminator key is present. -/
def tryParseActionJson (m : List Char) : Option Json :=
  match json_loads (String.mk (stripPy m)) with
  | some d => if (d.getKey ("action")).isSome then some d else none
  | none => none

/-- The structured-extraction phase of parse_ai_response (lines 634-650):
the matches of the four patterns in priority order, each match offered to
json.loads, first object carrying an action key wins. -/
def extractAction (s : String) : Option Json :=
  let cs := s.data
  let fuel := cs.length + 1
  (scanAll (tryFenced ("```json").data) fuel cs
    ++ scanAll (tryFenced ("```").data) fuel cs
    ++ scanAll tryBareAction fuel cs
    ++ scanAll tryLazyAction fuel cs).findSome? tryParseActionJson

/-- The completion keywords of the heuristic fallback (line 656). -/
def end_keywords : List String :=
  ["complete", "finished", "done", "success", "found the",
   "task accomplished", "objective achieved"]

/-- The generic click script synthesized by the fallback (line 670). -/
def quickClickCmd : String :=
  "quickClick(" ++ String.singleton squote ++ ".btn, button, a, input[type=\"submit\"]"
    ++ String.singleton squote ++ ")"

/-- The generic element-listing script synthesized by the fallback (line 672). -/
def findElementsCmd : String :=
  "return findElements(" ++ String.singleton squote ++ "input, textarea, select"
    ++ String.singleton squote ++ ")"

/-- Python str.lower on a whole string. -/
def pyLower (s : String) : String := String.mk (pyToLower s.data)

/-- Completion-vocabulary test of the fallback (lines 656-657). -/
def hasEndKw (lower : String) : Bool :=
  end_keywords.any fun k => pyContains lower k

/-- Interaction-vocabulary test of the fallback (line 664). -/
def hasInteractKw (lower : String) : Bool :=
  pyContains lower ("click") || pyContains lower ("fill") || pyContains lower ("submit")

/-- Loading-vocabulary test of the fallback (line 681). -/
def hasWaitKw (lower : String) : Bool :=
  pyContains lower ("wait") || pyContains lower ("loading")

/-- The js_commands list assembled inside the interaction branch
(lines 666-672): a generic click script when a click call is named, a
generic element listing when a fill call or the word type appears. -/
def heuristicCmds (lower : String) : List String :=
  (if pyContains lower ("click(") then [quickClickCmd] else [])
    ++ (if pyContains lower ("fill(") || pyContains lower ("type")
          then [findElementsCmd] else [])

/-- Translation of parse_ai_response (main.py lines 629-691): empty input
degrades to an end action; otherwise structured extraction is tried first,
then the keyword ladder over the lowercased text; the final fallback is an
end action quoting the first 500 characters of the raw text.  The Python
interaction branch returns only when its js_commands list is nonempty and
otherwise falls through to the remaining checks, which is captured by the
conjunction in the second guard. -/
def parse_ai_response (response_text : String) : Json :=
  if response_text = "" then
    Json.obj [("action", Json.str ("end")), ("error", Json.str ("Empty response"))]
  else
    match extractAction response_text with
    | some data => data
    | none =>
      let response_lower := pyLower response_text
      if hasEndKw response_lower then
        Json.obj [("action", Json.str ("end")),
                  ("analysis_report", Json.str response_text)]
      else if hasInteractKw response_lower
          && !(heuristicCmds response_lower).isEmpty then
        Json.obj [("action", Json.str ("javascript")),
                  ("javascript",
                    Json.str (String.intercalate ("; ") (heuristicCmds response_lower)))]
      else if hasWaitKw response_lower then
        Json.obj [("action", Json.str ("wait")), ("duration", Json.num 3)]
      else
        Json.obj [("action", Json.str ("end")),
          ("analysis_report",
            Json.str ("Could not parse response. Raw response: "
              ++ String.mk (response_text.data.take 500) ++ "..."))]

/-! ## Claims C1 and C9: response interpretation -/

/-- Normal form of parse_ai_response with the local binding expanded. -/
theorem parse_ai_response_eq (s : String) :
    parse_ai_response s =
      (if s = "" then
        Json.obj [("action", Json.str ("end")), ("error", Json.str ("Empty response"))]
      else
        match extractAction s with
        | some data => data
        | none =>
          if hasEndKw (pyLower s) then
            Json.obj [("action", Json.str ("end")),
                      ("analysis_report", Json.str s)]
          else if hasInteractKw (pyLower s)
              && !(heuristicCmds (pyLower s)).isEmpty then
            Json.obj [("action", Json.str ("javascript")),
                      ("javascript",
                        Json.str (String.intercalate ("; ") (heuristicCmds (pyLower s))))]
          else if hasWaitKw (pyLower s) then
            Json.obj [("action", Json.str ("wait")), ("duration", Json.num 3)]
          else
            Json.obj [("action", Json.str ("end")),
              ("analysis_report",
                Json.str ("Could not parse response. Raw response: "
                  ++ String.mk (s.data.take 500) ++ "..."))]) := rfl

/-- Helper: a successful findSome? comes from some element of the list. -/
theorem findSome?_mem_of_eq_some {α β : Type} {l : List α} {f : α → Option β}
    {b : β} (h : l.findSome? f = some b) : ∃ a, f a = some b := by
  induction l with
  | nil => simp [List.findSome?] at h
  | cons x xs ih =>
      rw [List.findSome?] at h
      cases hx : f x with
      | some y =>
          rw [hx] at h
          exact ⟨x, hx.trans h⟩
      | none =>
          rw [hx] at h
          exact ih h

/-- Helper: any object accepted by the inner loop of the extraction phase
carries the action key. -/
theorem tryParseActionJson_hasAction {m : List Char} {d : Json}
    (h : tryParseActionJson m = some d) : (d.getKey ("action")).isSome = true := by
  unfold tryParseActionJson at h
  cases hj : json_loads (String.mk (stripPy m)) with
  | none =>
      rw [hj] at h
      exact Option.noConfusion h
  | some j =>
      rw [hj] at h
      by_cases hk : (j.getKey ("action")).isSome = true
      · have h2 : some j = some d := by
          have h3 : (if (j.getKey ("action")).isSome = true
              then some j else none) = some d := h
          rwa [if_pos hk] at h3
        cases h2
        exact hk
      · have h3 : (if (j.getKey ("action")).isSome = true
            then some j else none) = some d := h
        rw [if_neg hk] at h3
        exact Option.noConfusion h3

/-- Helper: a successfully extracted object carries the action key. -/
theorem extractAction_hasAction {s : String} {d : Json}
    (h : extractAction s = some d) : (d.getKey ("action")).isSome = true := by
  unfold extractAction at h
  obtain ⟨m, hm⟩ := findSome?_mem_of_eq_some h
  exact tryParseActionJson_hasAction hm

/-- C1: parse_ai_response is total and structured — every input yields an
object carrying an action key; the fenced json block of the claim yields the
end action with report done; and any nonempty input with no extractable
structured data and none of the recognized fallback vocabulary degrades to
an end action quoting the raw text, rather than failing. -/
theorem C1_interpret_total_degrades :
    (∀ s : String, ∃ a, (parse_ai_response s).getKey ("action") = some a) ∧
    ((parse_ai_response
        ("```json \x7b\"action\":\"end\",\"analysis_report\":\"done\"\x7d ```")).getKey
          ("action") = some (Json.str ("end")) ∧
      (parse_ai_response
        ("```json \x7b\"action\":\"end\",\"analysis_report\":\"done\"\x7d ```")).getKey
          ("analysis_report") = some (Json.str ("done"))) ∧
    (∀ s : String, s ≠ "" → extractAction s = none →
      hasEndKw (pyLower s) = false →
      (hasInteractKw (pyLower s) && !(heuristicCmds (pyLower s)).isEmpty) = false →
      hasWaitKw (pyLower s) = false →
      parse_ai_response s =
        Json.obj [("action", Json.str ("end")),
          ("analysis_report",
            Json.str ("Could not parse response. Raw response: "
              ++ String.mk (s.data.take 500) ++ "..."))]) := by
  refine ⟨?_, ⟨rfl, rfl⟩, ?_⟩
  · intro s
    rw [parse_ai_response_eq]
    by_cases hs : s = ""
    · rw [if_pos hs]
      exact ⟨Json.str ("end"), rfl⟩
    · rw [if_neg hs]
      cases hx : extractAction s with
      | some d =>
          simp only [hx]
          exact Option.isSome_iff_exists.mp (extractAction_hasAction hx)
      | none =>
          simp only [hx]
          by_cases h1 : hasEndKw (pyLower s) = true
          · rw [if_pos h1]
            exact ⟨Json.str ("end"), rfl⟩
          · rw [if_neg h1]
            by_cases h2 : (hasInteractKw (pyLower s)
                && !(heuristicCmds (pyLower s)).isEmpty) = true
            · rw [if_pos h2]
              exact ⟨Json.str ("javascript"), rfl⟩
            · rw [if_neg h2]
              by_cases h3 : hasWaitKw (pyLower s) = true
              · rw [if_pos h3]
                exact ⟨Json.str ("wait"), rfl⟩
              · rw [if_neg h3]
                exact ⟨Json.str ("end"), rfl⟩
  · intro s hne hex h1 h2 h3
    rw [parse_ai_response_eq, if_neg hne]
    simp only [hex, h1, h2, h3, Bool.false_eq_true, if_false]

/-- C1 witness: the unparseable literal of the claim degrades to an end
action quoting the raw text. -/
theorem C1_interpret_total_degrades_witness :
    parse_ai_response ("Error: element not found") =
      Json.obj [("action", Json.str ("end")),
        ("analysis_report",
          Json.str ("Could not parse response. Raw response: Error: element not found..."))] := by
  rw [C1_interpret_total_degrades.2.2 ("Error: element not found")
    (by decide) rfl rfl rfl rfl]
  rfl

/-- C9 counterexample: interaction vocabulary alone does not produce a
script action.  The input contains the word click (and no structured data
and no completion vocabulary), yet parse_ai_response returns an end action,
because the code only emits a script when a call-shaped token is also
present; end and javascript are distinct actions. -/
theorem C9_fallback_counterexample :
    hasInteractKw (pyLower ("click here")) = true ∧
    (parse_ai_response ("click here")).getKey ("action") = some (Json.str ("end")) ∧
    ("end" : String) ≠ "javascript" :=
  ⟨rfl, rfl, by decide⟩

/-- C9 amended: the heuristic fallback of parse_ai_response (reached on
nonempty input with no extractable structured data) maps the lowercased
text as follows — completion vocabulary yields End with the raw text as
report; interaction vocabulary yields a javascript action with the
synthesized generic script only when a call-shaped token (click-open-paren,
fill-open-paren, or the word type) is also present, and otherwise falls
through; loading vocabulary yields a wait action with default duration 3;
anything else yields End quoting the raw text. -/
theorem C9_fallback_ladder (s : String) (hne : s ≠ "")
    (hex : extractAction s = none) :
    (hasEndKw (pyLower s) = true →
      parse_ai_response s =
        Json.obj [("action", Json.str ("end")),
                  ("analysis_report", Json.str s)]) ∧
    (hasEndKw (pyLower s) = false → hasInteractKw (pyLower s) = true →
      (heuristicCmds (pyLower s)).isEmpty = false →
      parse_ai_response s =
        Json.obj [("action", Json.str ("javascript")),
          ("javascript",
            Json.str (String.intercalate ("; ") (heuristicCmds (pyLower s))))]) ∧
    (hasEndKw (pyLower s) = false →
      (hasInteractKw (pyLower s) && !(heuristicCmds (pyLower s)).isEmpty) = false →
      hasWaitKw (pyLower s) = true →
      parse_ai_response s =
        Json.obj [("action", Json.str ("wait")), ("duration", Json.num 3)]) ∧
    (hasEndKw (pyLower s) = false →
      (hasInteractKw (pyLower s) && !(heuristicCmds (pyLower s)).isEmpty) = false →
      hasWaitKw (pyLower s) = false →
      parse_ai_response s =
        Json.obj [("action", Json.str ("end")),
          ("analysis_report",
            Json.str ("Could not parse response. Raw response: "
              ++ String.mk (s.data.take 500) ++ "..."))]) := by
  rw [parse_ai_response_eq, if_neg hne]
  refine ⟨?_, ?_, ?_, ?_⟩ <;> intros <;> simp_all

/-- C9 amended witness: loading vocabulary with no structured data, no
completion vocabulary and no interaction vocabulary yields the default
wait action. -/
theorem C9_fallback_ladder_witness :
    parse_ai_response ("page still loading") =
      Json.obj [("action", Json.str ("wait")), ("duration", Json.num 3)] :=
  (C9_fallback_ladder ("page still loading") (by decide) rfl).2.2.1 rfl rfl rfl

/-! ## Page-state fingerprint (get_page_state_hash, main.py lines 301-327)

The method digests url, title, page-source length, four interactive-element
counts and the document readiness with hashlib.md5, falling back to a
digest of url and title alone when the counts or readiness cannot be read,
and to str(time.time()) when even url or title cannot be read.  MD5 itself
is implemented below over the UTF-8 bytes of the input string. -/

/-- Truncate to a 32-bit word. -/
def w32 (n : Nat) : Nat := n % 4294967296

/-- 32-bit modular addition. -/
def wadd (a b : Nat) : Nat := (a + b) % 4294967296

/-- 32-bit complement (argument below 2^32). -/
def wnot (a : Nat) : Nat := 4294967295 - a

/-- 32-bit left rotation. -/
def wrotl (x s : Nat) : Nat :=
  ((x <<< s) % 4294967296) ||| (x >>> (32 - s))

/-- The 64 MD5 sine-derived constants. -/
def md5KTable : List Nat :=
  [0xD76AA478, 0xE8C7B756, 0x242070DB, 0xC1BDCEEE,
   0xF57C0FAF, 0x4787C62A, 0xA8304613, 0xFD469501,
   0x698098D8, 0x8B44F7AF, 0xFFFF5BB1, 0x895CD7BE,
   0x6B901122, 0xFD987193, 0xA679438E, 0x49B40821,
   0xF61E2562, 0xC040B340, 0x265E5A51, 0xE9B6C7AA,
   0xD62F105D, 0x02441453, 0xD8A1E681, 0xE7D3FBC8,
   0x21E1CDE6, 0xC33707D6, 0xF4D50D87, 0x455A14ED,
   0xA9E3E905, 0xFCEFA3F8, 0x676F02D9, 0x8D2A4C8A,
   0xFFFA3942, 0x8771F681, 0x6D9D6122, 0xFDE5380C,
   0xA4BEEA44, 0x4BDECFA9, 0xF6BB4B60, 0xBEBFBC70,
   0x289B7EC6, 0xEAA127FA, 0xD4EF3085, 0x04881D05,
   0xD9D4D039, 0xE6DB99E5, 0x1FA27CF8, 0xC4AC5665,
   0xF4292244, 0x432AFF97, 0xAB9423A7, 0xFC93A039,
   0x655B59C3, 0x8F0CCC92, 0xFFEFF47D, 0x85845DD1,
   0x6FA87E4F, 0xFE2CE6E0, 0xA3014314, 0x4E0811A1,
   0xF7537E82, 0xBD3AF235, 0x2AD7D2BB, 0xEB86D391]

/-- The 64 MD5 per-step rotation amounts. -/
def md5STable : List Nat :=
  [7, 12, 17, 22, 7, 12, 17, 22, 7, 12, 17, 22, 7, 12, 17, 22,
   5, 9, 14, 20, 5, 9, 14, 20, 5, 9, 14, 20, 5, 9, 14, 20,
   4, 11, 16, 23, 4, 11, 16, 23, 4, 11, 16, 23, 4, 11, 16, 23,
   6, 10, 15, 21, 6, 10, 15, 21, 6, 10, 15, 21, 6, 10, 15, 21]

/-- Little-endian split of a value into the given number of bytes. -/
def leBytes (count n : Nat) : List Nat :=
  (List.range count).map fun i => (n >>> (8 * i)) % 256

/-- MD5 padding: the 0x80 byte, zeros to 56 mod 64, and the 64-bit
little-endian bit length. -/
def md5Pad (msg : List Nat) : List Nat :=
  let len := msg.length
  let z := (119 - len % 64) % 64
  msg ++ [0x80] ++ List.replicate z 0 ++ leBytes 8 (8 * len)

/-- Split a byte list into 64-byte blocks (fuel-bounded). -/
def chunks64 : Nat → List Nat → List (List Nat)
  | 0, _ => []
  | _, [] => []
  | fuel + 1, l => l.take 64 :: chunks64 fuel (l.drop 64)

/-- The i-th little-endian 32-bit word of a 64-byte block. -/
def blockWord (b : List Nat) (i : Nat) : Nat :=
  b.getD (4 * i) 0 + 256 * b.getD (4 * i + 1) 0
    + 65536 * b.getD (4 * i + 2) 0 + 16777216 * b.getD (4 * i + 3) 0

/-- One MD5 step, transforming the (a, b, c, d) state at step index i. -/
def md5Step (blk : List Nat) (st : Nat × Nat × Nat × Nat) (i : Nat) :
    Nat × Nat × Nat × Nat :=
  let (a, b, c, d) := st
  let (f, g) :=
    if i < 16 then ((b &&& c) ||| (wnot b &&& d), i)
    else if i < 32 then ((d &&& b) ||| (wnot d &&& c), (5 * i + 1) % 16)
    else if i < 48 then (b ^^^ c ^^^ d, (3 * i + 5) % 16)
    else (c ^^^ (b ||| wnot d), (7 * i) % 16)
  (d,
   wadd b (wrotl (wadd a (wadd f (wadd (md5KTable.getD i 0) (blockWord blk g))))
     (md5STable.getD i 0)),
   b, c)

/-- Process one 64-byte block into the running state. -/
def md5Block (st : Nat × Nat × Nat × Nat) (blk : List Nat) :
    Nat × Nat × Nat × Nat :=
  let (a0, b0, c0, d0) := st
  let (a, b, c, d) := (List.range 64).foldl (md5Step blk) (a0, b0, c0, d0)
  (wadd a0 a, wadd b0 b, wadd c0 c, wadd d0 d)

/-- A lowercase hexadecimal digit. -/
def hexChar (n : Nat) : Char :=
  if n < 10 then Char.ofNat (48 + n) else Char.ofNat (87 + n)

/-- Two lowercase hexadecimal digits of a byte. -/
def hexByte (n : Nat) : List Char := [hexChar (n / 16), hexChar (n % 16)]

/-- The MD5 digest of a byte list, as the usual 32-character lowercase
hexadecimal string. -/
def md5Bytes (msg : List Nat) : String :=
  let padded := md5Pad msg
  let (a, b, c, d) :=
    (chunks64 (padded.length + 1) padded).foldl md5Block
      (0x67452301, 0xEFCDAB89, 0x98BADCFE, 0x10325476)
  String.mk
    (((leBytes 4 a ++ leBytes 4 b ++ leBytes 4 c ++ leBytes 4 d).map hexByte).flatten)

/-- UTF-8 encoding of one character, modelling str.encode. -/
def utf8Bytes (c : Char) : List Nat :=
  let n := c.toNat
  if n < 0x80 then [n]
  else if n < 0x800 then [0xC0 + n / 64, 0x80 + n % 64]
  else if n < 0x10000 then
    [0xE0 + n / 4096, 0x80 + (n / 64) % 64, 0x80 + n % 64]
  else
    [0xF0 + n / 262144, 0x80 + (n / 4096) % 64, 0x80 + (n / 64) % 64,
     0x80 + n % 64]

/-- hashlib.md5(s.encode()).hexdigest(). -/
def md5hex (s : String) : String :=
  md5Bytes ((s.data.map utf8Bytes).flatten)

/-- The driver reads performed by get_page_state_hash, each none when the
corresponding WebDriver access raises: url and title are read in the outer
try, the remaining fields in the inner try. -/
structure DriverView where
  url : Option String
  title : Option String
  content_length : Option Nat
  forms_count : Option Nat
  inputs_count : Option Nat
  buttons_count : Option Nat
  links_count : Option Nat
  ready_state : Option String
deriving Repr, DecidableEq

/-- Translation of get_page_state_hash (main.py lines 301-327): digest of
all eight observation fields; on a failing inner read, digest of url and
title; on a failing outer read, the string of the current clock value
(str(time.time()), passed here as the rational parameter now). -/
def get_page_state_hash (d : DriverView) (now : ℚ) : String :=
  match d.url, d.title with
  | some url, some title =>
    (match d.content_length, d.forms_count, d.inputs_count, d.buttons_count,
        d.links_count, d.ready_state with
     | some cl, some fc, some ic, some bc, some lc, some rs =>
        md5hex (url ++ "|" ++ title ++ "|" ++ toString cl ++ "|" ++ toString fc
          ++ "|" ++ toString ic ++ "|" ++ toString bc ++ "|" ++ toString lc
          ++ "|" ++ rs)
     | _, _, _, _, _, _ => md5hex (url ++ "|" ++ title))
  | _, _ => toString now

/-! ## Claim C8: fingerprint totality, purity and sentinel behavior -/

/-- C8 counterexample: when the url/title reads fail, the fingerprint is
the string of the current clock, not a fixed sentinel: two calls on the
same (entirely unreadable) observation at clock values 1 and 2 return
different fingerprints, so the function is not pure and equal observation
fields do not imply equal fingerprints. -/
theorem C8_fingerprint_counterexample :
    get_page_state_hash
        ⟨none, none, none, none, none, none, none, none⟩ 1 ≠
      get_page_state_hash
        ⟨none, none, none, none, none, none, none, none⟩ 2 := by
  decide

set_option maxRecDepth 10000 in
set_option maxHeartbeats 1600000 in
/-- C8 amended: get_page_state_hash is total, and deterministic only on
observations whose url/title reads succeed.  On fully readable observations
it digests url, title, content length, the four element counts and the
readiness — content length included, so identity of the claim's field list
alone does not suffice.  When a count/readiness read fails it degrades to a
digest of url and title; when the url/title read fails it returns the
string of the clock value, which varies between calls. -/
theorem C8_fingerprint_amended :
    (∀ url title : String, ∀ cl fc ic bc lc : Nat, ∀ rs : String, ∀ now : ℚ,
      get_page_state_hash
          ⟨some url, some title, some cl, some fc, some ic, some bc,
            some lc, some rs⟩ now
        = md5hex (url ++ "|" ++ title ++ "|" ++ toString cl ++ "|"
            ++ toString fc ++ "|" ++ toString ic ++ "|" ++ toString bc
            ++ "|" ++ toString lc ++ "|" ++ rs)) ∧
    (∀ d : DriverView, ∀ url title : String, ∀ now : ℚ,
      d.url = some url → d.title = some title →
      (d.content_length = none ∨ d.forms_count = none ∨ d.inputs_count = none
        ∨ d.buttons_count = none ∨ d.links_count = none
        ∨ d.ready_state = none) →
      get_page_state_hash d now = md5hex (url ++ "|" ++ title)) ∧
    (∀ d : DriverView, ∀ now : ℚ,
      (d.url = none ∨ d.title = none) →
      get_page_state_hash d now = toString now) ∧
    get_page_state_hash
        ⟨some ("u"), some ("t"), some 10, some 1, some 2, some 3, some 4,
          some ("complete")⟩ 0 ≠
      get_page_state_hash
        ⟨some ("u"), some ("t"), some 20, some 1, some 2, some 3, some 4,
          some ("complete")⟩ 0 := by
  refine ⟨fun url title cl fc ic bc lc rs now => rfl, ?_, ?_, ?_⟩
  · intro d url title now hu ht hfail
    obtain ⟨uq, tq, clq, fcq, icq, bcq, lcq, rsq⟩ := d
    simp only at hu ht hfail
    subst hu
    subst ht
    rcases clq with _ | cl <;> rcases fcq with _ | fc <;>
      rcases icq with _ | ic <;> rcases bcq with _ | bc <;>
      rcases lcq with _ | lc <;> rcases rsq with _ | rs <;>
      first
        | (exfalso
           rcases hfail with h | h | h | h | h | h <;> exact Option.noConfusion h)
        | rfl
  · intro d now hfail
    obtain ⟨uq, tq, clq, fcq, icq, bcq, lcq, rsq⟩ := d
    simp only at hfail
    rcases uq with _ | u <;> rcases tq with _ | t <;>
      first
        | (exfalso
           rcases hfail with h | h <;> exact Option.noConfusion h)
        | rfl
  · decide

/-- C8 amended witness: an observation whose url read fails returns the
clock string even though every other field is readable. -/
theorem C8_fingerprint_amended_witness :
    get_page_state_hash
        ⟨none, some ("t"), some 1, some 1, some 1, some 1, some 1,
          some ("complete")⟩ 5 = toString (5 : ℚ) :=
  C8_fingerprint_amended.2.2.1 _ 5 (Or.inl rfl)

/-! ## Action dispatch (execute_javascript_enhanced and wait_for_condition,
main.py lines 329-511)

execute_javascript_enhanced wraps the script into a helper harness, runs it
through the driver, and classifies the outcome: a string result starting
with Error: (the harness catches script errors and returns such strings)
counts as a failed action, any other result as a successful one, and a
raised driver exception as a failed action; exactly one of the two counters
is incremented on every call.  wait_for_condition reports success on every
path, including its own exception handler. -/

/-- Outcome of one driver.execute_script call: the str() form of a returned
value, or a raised exception. -/
inductive JsOutcome where
  | value (s : String)
  | raiseExc (msg : String)
deriving Repr, DecidableEq

/-- Translation of execute_javascript_enhanced (main.py lines 329-480),
acting on the counters of the session state; returns the (success, message)
pair of the Python method. -/
def execute_javascript_enhanced (st : SessionState) (o : JsOutcome) :
    SessionState × Bool × String :=
  match o with
  | JsOutcome.value s =>
      if pyStartsWith s ("Error:") then
        ({ st with failed_actions := st.failed_actions + 1 }, false, s)
      else
        ({ st with successful_actions := st.successful_actions + 1 }, true, s)
  | JsOutcome.raiseExc m =>
      ({ st with failed_actions := st.failed_actions + 1 }, false,
        "Error executing JavaScript: " ++ m)

/-- The driver-dependent inputs of one wait_for_condition call: whether its
body raised (the message of the caught exception), and the element counts
of the element_change branch. -/
structure WaitEnv where
  raised : Option String
  initialCount : Int
  finalCount : Int
deriving Repr, DecidableEq

/-- Translation of wait_for_condition (main.py lines 482-511): every path,
including the exception handler, reports success. -/
def wait_for_condition (condition : String) (duration : ℚ) (w : WaitEnv) :
    Bool × String :=
  match w.raised with
  | some e => (true, "Wait completed with warning: " ++ e)
  | none =>
    if condition = "page_load" then
      (true, "Page loaded successfully")
    else if condition = "element_change" then
      if (w.finalCount - w.initialCount).natAbs > 5 then
        (true, "Page content changed (elements: " ++ toString w.initialCount
          ++ " -> " ++ toString w.finalCount ++ ")")
      else
        (true, "Waited " ++ toString duration ++ " seconds, minimal changes detected")
    else
      (true, "Waited for " ++ toString duration ++ " seconds")

/-! ## Session orchestration (run_enhanced_test, main.py lines 693-1024)

The driving loop is translated with explicit state passing; the external
world is an input trace: per-attempt navigation outcomes, per-iteration
page hashes and clock readings, and per-call outcomes of the oracle client,
the script executions, the page-information reads and the raw driver-url
reads (the latter two can raise — get_enhanced_page_info re-reads
driver.current_url inside its own exception handler, and the loop's
exception handler and the js-failure feedback interpolate
driver.current_url directly, so a dead driver raises there).  Screenshot
capture and image encoding never raise in the source (both catch all
exceptions and degrade to an empty path) and carry no claim, so their
bookkeeping is not tracked.  Long interface strings (system prompt,
feedback templates) are kept as their dynamic parts; the unmodelled
decorative parts of f-strings do not affect any control decision. -/

/-- The page summary assembled by get_enhanced_page_info that the loop
reads: location, title and number of collected interactive elements. -/
structure PageInfo where
  url : String
  title : String
  elements : Nat
deriving Repr, DecidableEq

/-- One entry of the test_results iteration log. -/
inductive IterEntry where
  | actionTag (it : Nat) (a : Json)
  | emptyResponse (it : Nat)
  | jsSuccess (it : Nat) (result : String)
  | jsFailed (it : Nat) (result : String)
  | waited (it : Nat) (result : String)
  | unknownAction (it : Nat) (a : Json)
  | errored (it : Nat) (msg : String)
deriving Repr

/-- The per-run configuration of run_enhanced_test. -/
structure Config where
  initial_url : String
  task : String
  max_iterations : Nat

/-- The input trace standing for the external world during one run.
Each numbered field is consumed in call order by its own counter. -/
structure Env where
  nav : Nat → Bool
  navErr : String
  pageHash : Nat → String
  elapsed : Nat → ℚ
  oracle : Nat → Except String String
  js : Nat → JsOutcome
  pageInfo : Nat → Except String PageInfo
  waitTrace : Nat → WaitEnv
  urlRead : Nat → Except String String
  errorUrl : Except String String

/-- The local state of the driving loop. -/
structure LoopState where
  sess : SessionState
  iteration : Nat
  messages : List Message
  log : List IterEntry
  lastReason : Option StopReason
  oracleCalls : Nat
  jsCalls : Nat
  infoCalls : Nat
  urlCalls : Nat
  waitCalls : Nat

/-- The structured content of the report string run_enhanced_test returns
(or of the bare navigation-failure string). -/
inductive Report where
  | navFailure (url err : String)
  | completedByAI (task : String) (iterations succ fail : Nat)
      (analysis : Json) (finalUrl finalTitle : String) (log : List IterEntry)
  | completedLimits (task : String) (reason : Option StopReason)
      (iterations succ fail : Nat) (analysis : String)
      (finalUrl finalTitle : String) (log : List IterEntry)
  | errorReport (task err : String) (iterations : Nat) (currentUrl : String)
      (log : Option (List IterEntry))
deriving Repr

/-- Whether the report's STATUS line reads COMPLETED (either COMPLETED BY
AI or COMPLETED with a loop-exit reason) rather than FAILED or a bare
navigation-failure message. -/
def Report.isCompleted : Report → Bool
  | Report.completedByAI _ _ _ _ _ _ _ _ => true
  | Report.completedLimits _ _ _ _ _ _ _ _ _ => true
  | _ => false

/-- How the driving loop ended. -/
inductive LoopExit where
  | aiReturn (ls : LoopState) (analysis : Json) (info : PageInfo)
  | goalNone (ls : LoopState)
  | policyStop (ls : LoopState)
  | raised (ls : LoopState) (err : String)

/-- The loop state an exit carries. -/
def LoopExit.state : LoopExit → LoopState
  | LoopExit.aiReturn ls _ _ => ls
  | LoopExit.goalNone ls => ls
  | LoopExit.policyStop ls => ls
  | LoopExit.raised ls _ => ls

/-- Python truthiness of a decoded JSON value, used by the
if-not-js_code check. -/
def jsTruthy : Json → Bool
  | Json.null => false
  | Json.bool b => b
  | Json.num q => q ≠ 0
  | Json.str s => s ≠ ""
  | Json.arr l => !l.isEmpty
  | Json.obj f => !f.isEmpty

/-- State update of the per-iteration exception handler (main.py lines
913-934) once its own driver-url read has succeeded: append the corrective
feedback turn and the error log entry. -/
def handlerUpdate (ls : LoopState) (it : Nat) (errMsg u : String) : LoopState :=
  { ls with
      messages := ls.messages ++
        [{ role := "user"
           content := "Error occurred in iteration " ++ toString it ++ ": "
             ++ errMsg ++ " Current page: " ++ u
           image := "" }]
      log := ls.log ++ [IterEntry.errored it (String.mk (errMsg.data.take 50))] }

/-- The corrective turn appended when a javascript action carries no code
(main.py lines 821-824). -/
def noCodeMessage : Message :=
  { role := "user"
    content := "No JavaScript code provided. Please provide specific code or end the test if goal is achieved."
    image := "" }

/-- The feedback turn after a successful script execution (lines 837-849,
870); the visual attachment is left empty, as screenshot bookkeeping is
not tracked. -/
def jsSuccessFeedback (result : String) (info : PageInfo) : Message :=
  { role := "user"
    content := "JavaScript executed successfully! RESULT: " ++ result
      ++ " UPDATED PAGE STATE: URL: " ++ info.url ++ " Title: " ++ info.title
      ++ " Interactive Elements: " ++ toString info.elements
    image := "" }

/-- The feedback turn after a failed script execution (lines 854-862). -/
def jsFailedFeedback (result u : String) : Message :=
  { role := "user"
    content := "JavaScript execution failed: " ++ result
      ++ " Please try a different approach. Current page: " ++ u
    image := "" }

/-- The feedback turn after a wait action (lines 887-895). -/
def waitFeedback (result : String) (info : PageInfo) : Message :=
  { role := "user"
    content := "Wait completed: " ++ result ++ " CURRENT PAGE STATE: URL: "
      ++ info.url ++ " Title: " ++ info.title
    image := "" }

/-- The corrective turn on an unrecognized action (lines 907-910). -/
def unknownActionMessage (txt : String) : Message :=
  { role := "user"
    content := "Unknown action. Please use javascript, wait, or end. Raw response: "
      ++ String.mk (txt.data.take 200)
    image := "" }

/-- State update for an unrecognized action: corrective turn and log entry
(lines 905-911). -/
def unknownUpdate (ls : LoopState) (it : Nat) (act : Json) (txt : String) :
    LoopState :=
  { ls with
      messages := ls.messages ++ [unknownActionMessage txt]
      log := ls.log ++ [IterEntry.unknownAction it act] }

/-- Translation of the while loop of run_enhanced_test (main.py lines
749-934).  The fuel is the remaining iteration budget
max_iterations - iteration, so exhausted fuel is exactly the
while-condition exit.  Inside one pass, any exception raised by the body
(oracle failure, a failing page-information read, a failing driver-url
read, a TypeError from clamping a non-numeric duration) is absorbed by the
per-iteration handler, which itself reads driver.current_url and therefore
escalates when that read raises too. -/
def testLoop (env : Env) (cfg : Config) : Nat → LoopState → LoopExit
  | 0, ls => LoopExit.policyStop ls
  | fuel + 1, ls =>
    let it := ls.iteration + 1
    let res := should_continue_testing ls.sess (env.elapsed it) (env.pageHash it)
      it cfg.max_iterations
    let ls1 := { ls with sess := res.1, iteration := it, lastReason := some res.2.2 }
    if !res.2.1 then LoopExit.policyStop ls1
    else
      match env.oracle ls1.oracleCalls with
      | Except.error e =>
          let ls2 := { ls1 with oracleCalls := ls1.oracleCalls + 1 }
          (match env.urlRead ls2.urlCalls with
           | Except.error e2 =>
               LoopExit.raised { ls2 with urlCalls := ls2.urlCalls + 1 } e2
           | Except.ok u =>
               testLoop env cfg fuel
                 (handlerUpdate { ls2 with urlCalls := ls2.urlCalls + 1 } it e u))
      | Except.ok txt =>
        let ls2 := { ls1 with oracleCalls := ls1.oracleCalls + 1 }
        if txt = "" then
          testLoop env cfg fuel
            { ls2 with log := ls2.log ++ [IterEntry.emptyResponse it] }
        else
          let data := parse_ai_response txt
          let act := (data.getKey ("action")).getD (Json.str ("unknown"))
          let ls3 := { ls2 with log := ls2.log ++ [IterEntry.actionTag it act] }
          match act with
          | Json.str a =>
            if a = "end" then
              let analysis := (data.getKey ("analysis_report")).getD (Json.str txt)
              match env.pageInfo ls3.infoCalls with
              | Except.error e =>
                  let ls4 := { ls3 with infoCalls := ls3.infoCalls + 1 }
                  (match env.urlRead ls4.urlCalls with
                   | Except.error e2 =>
                       LoopExit.raised { ls4 with urlCalls := ls4.urlCalls + 1 } e2
                   | Except.ok u =>
                       LoopExit.goalNone
                         (handlerUpdate { ls4 with urlCalls := ls4.urlCalls + 1 } it e u))
              | Except.ok info =>
                  LoopExit.aiReturn { ls3 with infoCalls := ls3.infoCalls + 1 }
                    analysis info
            else if a = "javascript" then
              let jsc := (data.getKey ("javascript")).getD (Json.str (""))
              if !jsTruthy jsc then
                testLoop env cfg fuel
                  { ls3 with messages := ls3.messages ++ [noCodeMessage] }
              else
                let ex := execute_javascript_enhanced ls3.sess (env.js ls3.jsCalls)
                let ls4 := { ls3 with sess := ex.1, jsCalls := ls3.jsCalls + 1 }
                if ex.2.1 then
                  match env.pageInfo ls4.infoCalls with
                  | Except.error e =>
                      let ls5 := { ls4 with infoCalls := ls4.infoCalls + 1 }
                      (match env.urlRead ls5.urlCalls with
                       | Except.error e2 =>
                           LoopExit.raised { ls5 with urlCalls := ls5.urlCalls + 1 } e2
                       | Except.ok u =>
                           testLoop env cfg fuel
                             (handlerUpdate { ls5 with urlCalls := ls5.urlCalls + 1 } it e u))
                  | Except.ok info =>
                      testLoop env cfg fuel
                        { ls4 with
                            infoCalls := ls4.infoCalls + 1
                            log := ls4.log ++
                              [IterEntry.jsSuccess it (String.mk (ex.2.2.data.take 50))]
                            messages := ls4.messages ++ [jsSuccessFeedback ex.2.2 info] }
                else
                  match env.urlRead ls4.urlCalls with
                  | Except.error e =>
                      let ls5 := { ls4 with urlCalls := ls4.urlCalls + 1 }
                      (match env.urlRead ls5.urlCalls with
                       | Except.error e2 =>
                           LoopExit.raised { ls5 with urlCalls := ls5.urlCalls + 1 } e2
                       | Except.ok u =>
                           testLoop env cfg fuel
                             (handlerUpdate { ls5 with urlCalls := ls5.urlCalls + 1 } it e u))
                  | Except.ok u =>
                      testLoop env cfg fuel
                        { ls4 with
                            urlCalls := ls4.urlCalls + 1
                            log := ls4.log ++
                              [IterEntry.jsFailed it (String.mk (ex.2.2.data.take 50))]
                            messages := ls4.messages ++ [jsFailedFeedback ex.2.2 u] }
            else if a = "wait" then
              match (data.getKey ("duration")).getD (Json.num 3) with
              | Json.num q =>
                  let dur := max 1 (min q 10)
                  let cond :=
                    match data.getKey ("condition") with
                    | some (Json.str c) => c
                    | some _ => ""
                    | none => "page_load"
                  let w := wait_for_condition cond dur (env.waitTrace ls3.waitCalls)
                  let ls4 := { ls3 with waitCalls := ls3.waitCalls + 1 }
                  (match env.pageInfo ls4.infoCalls with
                   | Except.error e =>
                       let ls5 := { ls4 with infoCalls := ls4.infoCalls + 1 }
                       (match env.urlRead ls5.urlCalls with
                        | Except.error e2 =>
                            LoopExit.raised { ls5 with urlCalls := ls5.urlCalls + 1 } e2
                        | Except.ok u =>
                            testLoop env cfg fuel
                              (handlerUpdate { ls5 with urlCalls := ls5.urlCalls + 1 } it e u))
                   | Except.ok info =>
                       testLoop env cfg fuel
                         { ls4 with
                             infoCalls := ls4.infoCalls + 1
                             messages := ls4.messages ++ [waitFeedback w.2 info]
                             log := ls4.log ++ [IterEntry.waited it w.2] })
              | Json.bool b =>
                  let dur := max 1 (min (if b then (1 : ℚ) else 0) 10)
                  let cond :=
                    match data.getKey ("condition") with
                    | some (Json.str c) => c
                    | some _ => ""
                    | none => "page_load"
                  let w := wait_for_condition cond dur (env.waitTrace ls3.waitCalls)
                  let ls4 := { ls3 with waitCalls := ls3.waitCalls + 1 }
                  (match env.pageInfo ls4.infoCalls with
                   | Except.error e =>
                       let ls5 := { ls4 with infoCalls := ls4.infoCalls + 1 }
                       (match env.urlRead ls5.urlCalls with
                        | Except.error e2 =>
                            LoopExit.raised { ls5 with urlCalls := ls5.urlCalls + 1 } e2
                        | Except.ok u =>
                            testLoop env cfg fuel
                              (handlerUpdate { ls5 with urlCalls := ls5.urlCalls + 1 } it e u))
                   | Except.ok info =>
                       testLoop env cfg fuel
                         { ls4 with
                             infoCalls := ls4.infoCalls + 1
                             messages := ls4.messages ++ [waitFeedback w.2 info]
                             log := ls4.log ++ [IterEntry.waited it w.2] })
              | _ =>
                  (match env.urlRead ls3.urlCalls with
                   | Except.error e2 =>
                       LoopExit.raised { ls3 with urlCalls := ls3.urlCalls + 1 } e2
                   | Except.ok u =>
                       testLoop env cfg fuel
                         (handlerUpdate { ls3 with urlCalls := ls3.urlCalls + 1 } it
                           ("TypeError: unorderable duration") u))
            else
              testLoop env cfg fuel (unknownUpdate ls3 it act txt)
          | other =>
              testLoop env cfg fuel (unknownUpdate ls3 it other txt)

/-- The opening conversation turn built from the system prompt, the task
and the initial page analysis (main.py lines 726-746). -/
def initialMessage (cfg : Config) (info : PageInfo) : Message :=
  { role := "user"
    content := "TASK: " ++ cfg.task ++ " CURRENT PAGE ANALYSIS: URL: "
      ++ info.url ++ " Title: " ++ info.title ++ " Interactive elements found: "
      ++ toString info.elements
    image := "" }

/-- The initial loop state once navigation and the initial page read have
succeeded (iteration 0, fresh session counters, one page-information read
consumed). -/
def initLoopState (cfg : Config) (info : PageInfo) : LoopState :=
  { sess := initSessionState
    iteration := 0
    messages := [initialMessage cfg info]
    log := []
    lastReason := none
    oracleCalls := 0
    jsCalls := 0
    infoCalls := 1
    urlCalls := 0
    waitCalls := 0 }

/-- The default final analysis when the wrap-up oracle call yields nothing
(main.py line 945). -/
def defaultFinalAnalysis : String := "Test completed due to iteration/time limits."

/-- The value run_enhanced_test hands back to its caller together with the
observations instrumented on the run: whether the finally-block cleanup
ran, how many script executions were attempted, and the final action
counters.  The returned value is Except.error when an exception escapes
the method (its finally still runs), Except.ok none when the method falls
off its end and returns Python None, and Except.ok (some report)
otherwise. -/
structure RunResult where
  retval : Except String (Option Report)
  cleanupRan : Bool
  jsExecutions : Nat
  succ : Nat
  fail : Nat

/-- The try-block body of run_enhanced_test (main.py lines 695-994)
together with the final loop state: navigation with three attempts, the
initial page read, the driving loop, and the three report-producing exits.
Throws (as Except.error) exactly where an exception reaches the outer
try. -/
def runBody (env : Env) (cfg : Config) :
    Except (String × Option (List IterEntry)) (Option Report) × LoopState :=
  if env.nav 0 || env.nav 1 || env.nav 2 then
    match env.pageInfo 0 with
    | Except.error e => (Except.error (e, none), initLoopState cfg ⟨"", "", 0⟩)
    | Except.ok info0 =>
      let ls0 := initLoopState cfg info0
      match testLoop env cfg cfg.max_iterations ls0 with
      | LoopExit.aiReturn ls analysis info =>
          (Except.ok (some (Report.completedByAI cfg.task ls.iteration
            ls.sess.successful_actions ls.sess.failed_actions analysis
            info.url info.title ls.log)), ls)
      | LoopExit.goalNone ls => (Except.ok none, ls)
      | LoopExit.raised ls e => (Except.error (e, some ls.log), ls)
      | LoopExit.policyStop ls =>
          match env.pageInfo ls.infoCalls with
          | Except.error e => (Except.error (e, some ls.log), ls)
          | Except.ok finfo =>
            let ls2 := { ls with infoCalls := ls.infoCalls + 1 }
            let analysis :=
              match env.oracle ls2.oracleCalls with
              | Except.ok t => if t = "" then defaultFinalAnalysis else t
              | Except.error _ => defaultFinalAnalysis
            let ls3 := { ls2 with oracleCalls := ls2.oracleCalls + 1 }
            (Except.ok (some (Report.completedLimits cfg.task ls3.lastReason
              ls3.iteration ls3.sess.successful_actions ls3.sess.failed_actions
              analysis finfo.url finfo.title ls3.log)), ls3)
  else
    (Except.ok (some (Report.navFailure cfg.initial_url env.navErr)),
      initLoopState cfg ⟨"", "", 0⟩)

/-- Translation of run_enhanced_test with its except and finally blocks
(main.py lines 996-1024): an exception from the body is turned into an
error report — whose construction itself reads driver.current_url and so
re-raises when that read fails — and the finally-block cleanup runs on
every exit.  The iteration count and partial log of the error report come
from the loop state at the point of failure; before the loop they are 0 and
unset (No results recorded). -/
def run_enhanced_test_model (env : Env) (cfg : Config) : RunResult :=
  let body := runBody env cfg
  let ls := body.2
  let retval :=
    match body.1 with
    | Except.ok r => Except.ok r
    | Except.error ep =>
        match env.errorUrl with
        | Except.error e2 => Except.error e2
        | Except.ok u =>
            Except.ok (some (Report.errorReport cfg.task ep.1 ls.iteration u ep.2))
  { retval := retval
    cleanupRan := true
    jsExecutions := ls.jsCalls
    succ := ls.sess.successful_actions
    fail := ls.sess.failed_actions }

/-! ## Claims C2 and C7: report production, cleanup, end-to-end run -/

/-- An external world in which everything succeeds and the oracle always
answers with the end action carrying report ok. -/
def endOracleEnv : Env :=
  { nav := fun _ => true
    navErr := ""
    pageHash := fun _ => "h"
    elapsed := fun _ => 1
    oracle := fun _ =>
      Except.ok ("\x7b\"action\":\"end\",\"analysis_report\":\"ok\"\x7d")
    js := fun _ => JsOutcome.value ""
    pageInfo := fun _ => Except.ok { url := "u", title := "t", elements := 3 }
    waitTrace := fun _ => { raised := none, initialCount := 0, finalCount := 0 }
    urlRead := fun _ => Except.ok ("u")
    errorUrl := Except.ok ("u") }

/-- endOracleEnv with a driver that dies right after the first page read:
every later page-information read raises (the WebDriver url re-read in its
handler fails too). -/
def dyingDriverEnv : Env :=
  { endOracleEnv with
      pageInfo := fun i =>
        if i = 0 then Except.ok { url := "u", title := "t", elements := 3 }
        else Except.error ("invalid session id") }

/-- endOracleEnv with a driver dead from the start, including during the
construction of the error report. -/
def deadDriverEnv : Env :=
  { endOracleEnv with
      pageInfo := fun _ => Except.error ("invalid session id")
      errorUrl := Except.error ("invalid session id") }

/-- C2: the finally-block cleanup runs on every exit of run_enhanced_test;
but the claim that the caller always receives a textual report is violated
by the code on two paths.  First, when the oracle issues end and the
final page-information read then raises inside the loop body, the
per-iteration handler absorbs the exception with goal_achieved already set,
the loop exits, the closing if-block is skipped, and the method returns
None — no report.  Second, when an exception reaches the outer handler and
the driver-url read inside the error-report f-string raises as well, the
exception escapes to the caller.  Cleanup still runs in both cases. -/
theorem C2_cleanup_and_missing_report :
    (∀ env : Env, ∀ cfg : Config,
      (run_enhanced_test_model env cfg).cleanupRan = true) ∧
    (run_enhanced_test_model dyingDriverEnv
        { initial_url := "http://x", task := "task", max_iterations := 5 }).retval
      = Except.ok none ∧
    (run_enhanced_test_model deadDriverEnv
        { initial_url := "http://x", task := "task", max_iterations := 5 }).retval
      = Except.error ("invalid session id") :=
  ⟨fun _ _ => rfl, rfl, rfl⟩

/-- C7: a session with max_iterations = 1 whose oracle answers with the
end/ok action yields a report with completed status, iteration count 1, and
zero script executions attempted.  With this cap the termination policy
already fires at the first check (iteration 1 >= 1), before any action is
requested, so the first oracle response is consumed by the wrap-up
final-analysis call; the reported status, iteration count and absence of
script executions are exactly as claimed. -/
theorem C7_single_iteration_run :
    run_enhanced_test_model endOracleEnv
        { initial_url := "http://x", task := "task", max_iterations := 1 } =
      { retval := Except.ok (some (Report.completedLimits ("task")
          (some (StopReason.maxIterations 1)) 1 0 0
          ("\x7b\"action\":\"end\",\"analysis_report\":\"ok\"\x7d") ("u") ("t") []))
        cleanupRan := true
        jsExecutions := 0
        succ := 0
        fail := 0 } ∧
    Report.isCompleted (Report.completedLimits ("task")
        (some (StopReason.maxIterations 1)) 1 0 0
        ("\x7b\"action\":\"end\",\"analysis_report\":\"ok\"\x7d") ("u") ("t") [])
      = true :=
  ⟨rfl, rfl⟩

/-! ## Claim C10: the action counters are driven by script execution only -/

/-- Helper: the termination policy never touches the action counters. -/
theorem scty_counters (st : SessionState) (e : ℚ) (h : String) (i m : Nat) :
    (should_continue_testing st e h i m).1.successful_actions
        = st.successful_actions ∧
    (should_continue_testing st e h i m).1.failed_actions = st.failed_actions := by
  have hu1 : (updateStag st h).successful_actions = st.successful_actions := by
    unfold updateStag
    split_ifs <;> rfl
  have hu2 : (updateStag st h).failed_actions = st.failed_actions := by
    unfold updateStag
    split_ifs <;> rfl
  rw [should_continue_testing_eq]
  split_ifs <;> first
    | exact ⟨rfl, rfl⟩
    | exact ⟨hu1, hu2⟩

/-- Helper: one script execution adds exactly one to the combined counter
total (stated over the integers for use in the loop invariant). -/
theorem exec_js_sum (st : SessionState) (o : JsOutcome) :
    ((execute_javascript_enhanced st o).1.successful_actions : Int)
        + ((execute_javascript_enhanced st o).1.failed_actions : Int)
      = (st.successful_actions : Int) + (st.failed_actions : Int) + 1 := by
  cases o with
  | value s =>
      unfold execute_javascript_enhanced
      by_cases hs : pyStartsWith s ("Error:") = true <;> simp [hs] <;> omega
  | raiseExc m =>
      unfold execute_javascript_enhanced
      simp
      omega

/-- Helper: across any number of loop passes, the combined action-counter
total grows by exactly the number of script executions attempted. -/
theorem testLoop_counter_invariant (env : Env) (cfg : Config) :
    ∀ fuel : Nat, ∀ ls : LoopState,
      (((testLoop env cfg fuel ls).state).sess.successful_actions : Int)
          + (((testLoop env cfg fuel ls).state).sess.failed_actions : Int)
          - (((testLoop env cfg fuel ls).state).jsCalls : Int)
        = (ls.sess.successful_actions : Int) + (ls.sess.failed_actions : Int)
          - (ls.jsCalls : Int) := by
  intro fuel
  induction fuel with
  | zero => intro ls; rfl
  | succ fuel ih =>
      intro ls
      have hsc := scty_counters ls.sess (env.elapsed (ls.iteration + 1))
        (env.pageHash (ls.iteration + 1)) (ls.iteration + 1) cfg.max_iterations
      simp only [testLoop]
      repeat' split
      all_goals try rw [ih]
      all_goals
        simp_all [LoopExit.state, handlerUpdate, unknownUpdate, exec_js_sum]

/-- C10: the success/failure action counters are driven by script execution
alone.  Each call to execute_javascript_enhanced increments exactly one of
the two counters by exactly one (the failed counter when the harness
reports an error string or the driver raises, the successful counter
otherwise), and over any whole run the combined counter total equals the
number of script executions attempted — wait actions and unrecognized
actions never move the counters, so the failure-rate termination signal is
a ratio over script executions only. -/
theorem C10_counters_only_scripts :
    (∀ st : SessionState, ∀ o : JsOutcome,
      ((execute_javascript_enhanced st o).2.1 = true →
        (execute_javascript_enhanced st o).1.successful_actions
            = st.successful_actions + 1 ∧
        (execute_javascript_enhanced st o).1.failed_actions = st.failed_actions) ∧
      ((execute_javascript_enhanced st o).2.1 = false →
        (execute_javascript_enhanced st o).1.failed_actions
            = st.failed_actions + 1 ∧
        (execute_javascript_enhanced st o).1.successful_actions
            = st.successful_actions)) ∧
    (∀ env : Env, ∀ cfg : Config,
      (run_enhanced_test_model env cfg).succ + (run_enhanced_test_model env cfg).fail
        = (run_enhanced_test_model env cfg).jsExecutions) := by
  constructor
  · intro st o
    cases o with
    | value s =>
        unfold execute_javascript_enhanced
        by_cases hs : pyStartsWith s ("Error:") = true <;> simp [hs]
    | raiseExc m =>
        unfold execute_javascript_enhanced
        simp
  · intro env cfg
    unfold run_enhanced_test_model runBody
    by_cases hnav : (env.nav 0 || env.nav 1 || env.nav 2) = true
    · simp only [hnav, if_true]
      split
      · simp [initLoopState, initSessionState]
      · rename_i info0 heq0
        have hinv := testLoop_counter_invariant env cfg cfg.max_iterations
          (initLoopState cfg info0)
        split <;> (try split) <;>
          simp_all [LoopExit.state, initLoopState, initSessionState] <;>
          omega
    · rw [Bool.not_eq_true] at hnav
      simp [hnav, initLoopState, initSessionState]

/-- C10 witness: a successful script execution on a fresh session moves the
successful counter from 0 to 1 and leaves the failed counter at 0. -/
theorem C10_counters_only_scripts_witness :
    (execute_javascript_enhanced initSessionState
        (JsOutcome.value ("done"))).1.successful_actions
      = initSessionState.successful_actions + 1 ∧
    (execute_javascript_enhanced initSessionState
        (JsOutcome.value ("done"))).1.failed_actions
      = initSessionState.failed_actions :=
  (C10_counters_only_scripts.1 initSessionState (JsOutcome.value ("done"))).1 rfl
